import Mathlib

/-!
# whatnetwork: classification of HTTP/network errors

A shallow embedding of `whatnetwork.go` (package `whatnetwork`).

Modelling conventions.

* A Go `error` interface value is a `GoError`: its dynamic type, the fields
  `ExtractBasicError` reads, and, for the types that are not declared in this
  package, the string its `Error()` method returns when it returns (`msg`).
  Pointer-typed errors (`*url.Error`, `*net.OpError`, `*os.SyscallError`) are non-nil
  pointers; the nil interface is the constructor `GoError.nil`.
* `Error()` of a `*net.OpError` and of an `*os.SyscallError` ends with the call
  `e.Err.Error()`, so it panics when `Err` is nil or when that call panics;
  `Error()` of a `*url.Error` formats `Err` through `fmt`, which recovers such a
  panic, so it always returns.
* `BasicErrorType` and `ConnectionStatus` are Go string types and stay strings.
* A run-time panic is the result `none`.
* The counters `interfacesUp` and `nonLoopbackAddrs` are Go `int`s that count
  elements of slices; they cannot wrap around and are natural numbers.
* `http.Head` and `net.Interfaces` are the environment: their results are the
  fields of a `Host`. An error returned by `http.Head` is of type `*url.Error`.
-/

set_option linter.dupNamespace false

namespace Whatnetwork

/-- The Go type `BasicErrorType` (a `string`). -/
abbrev BasicErrorType := String

def BasicError_CantResolveHost : BasicErrorType := "CantResolveHost"
def BasicError_CantFindHost : BasicErrorType := "CantFindHost"
def BasicError_CantConnectToHost : BasicErrorType := "CantConnectToHost"
def BasicError_UnexpectedEof : BasicErrorType := "UnexpectedEof"
def BasicError_BadDataReceived : BasicErrorType := "BadDataReceived"
def BasicError_Unknown : BasicErrorType := "Unknown"

/-- A value of the Go interface type `error`.

* `nil`: the nil interface.
* `urlError msg Err`: a `*url.Error` with field `Err`.
* `opError msg Op Err`: a `*net.OpError` with fields `Op` and `Err`.
* `syscallError msg Syscall Err`: an `*os.SyscallError` with fields `Syscall`, `Err`.
* `eof`: the sentinel `io.EOF`.
* `basicError BasicError Cause`: a value of this package's struct `BasicError`.
* `other msg`: an error of any other dynamic type.

`msg` is what the value's `Error()` method returns, when it returns. -/
inductive GoError where
  | nil : GoError
  | urlError (msg : String) (Err : GoError) : GoError
  | opError (msg : String) (Op : String) (Err : GoError) : GoError
  | syscallError (msg : String) (Syscall : String) (Err : GoError) : GoError
  | eof : GoError
  | basicError (BasicError : BasicErrorType) (Cause : GoError) : GoError
  | other (msg : String) : GoError
  deriving DecidableEq, Repr

/-- The Go struct `BasicError`. -/
structure BasicError where
  BasicError : BasicErrorType
  Cause : GoError
  deriving DecidableEq, Repr

/-- A `BasicError` stored in an `error` interface. -/
def BasicError.toError (b : Whatnetwork.BasicError) : GoError :=
  GoError.basicError b.BasicError b.Cause

/-- The method `func (b BasicError) Error() string`. -/
def BasicError.Error (b : Whatnetwork.BasicError) : String :=
  b.BasicError

/-- The call `err.Error()` on an interface value; `none` is a panic: that of a method
call on the nil interface, and that of `(*net.OpError).Error` and
`(*os.SyscallError).Error`, which end with `e.Err.Error()`, when this inner call
panics. `io.EOF` is `errors.New("EOF")`. -/
def GoError.Error : GoError → Option String
  | .nil => none
  | .urlError msg _ => some msg
  | .opError msg _ Err =>
    match Err.Error with
    | none => none
    | some _ => some msg
  | .syscallError msg _ Err =>
    match Err.Error with
    | none => none
    | some _ => some msg
  | .eof => some "EOF"
  | .basicError c cause => some (BasicError.Error ⟨c, cause⟩)
  | .other msg => some msg

def transport_errClosed : String :=
  "net/http: transport closed before response was received"

def http_malformedPrefix : String :=
  "malformed HTTP response"

/-- The Go function `strings.HasPrefix`. -/
def HasPrefix (s p : String) : Bool :=
  p.data.isPrefixOf s.data

/-- The Go function `ExtractBasicError`. -/
def ExtractBasicError (err : GoError) : Option BasicError :=
  match err.Error with
  | none => none
  | some text =>
    match err with
    | .urlError _ urlErr_Err =>
      match urlErr_Err with
      | .opError _ Op opErr_Err =>
        if Op = "dial" then
          match opErr_Err with
          | .opError _ Op2 _ =>
            if Op2 = "ConnectEx" then
              some ⟨BasicError_CantConnectToHost, err⟩
            else
              some ⟨BasicError_CantResolveHost, err⟩
          | _ => some ⟨BasicError_CantResolveHost, err⟩
        else if Op = "local error" then
          some ⟨BasicError_CantFindHost, err⟩
        else
          some ⟨BasicError_Unknown, err⟩
      | _ => some ⟨BasicError_Unknown, err⟩
    | .opError _ Op opErr_Err =>
      if Op = "dial" then
        match opErr_Err with
        | .syscallError _ Syscall _ =>
          if Syscall = "GetAddrInfoW" then
            some ⟨BasicError_CantResolveHost, err⟩
          else
            some ⟨BasicError_Unknown, err⟩
        | .opError _ Op2 _ =>
          if Op2 = "ConnectEx" then
            some ⟨BasicError_CantConnectToHost, err⟩
          else
            some ⟨BasicError_Unknown, err⟩
        | _ => some ⟨BasicError_Unknown, err⟩
      else if Op = "WSARecv" then
        some ⟨BasicError_UnexpectedEof, err⟩
      else
        some ⟨BasicError_Unknown, err⟩
    | .eof => some ⟨BasicError_UnexpectedEof, err⟩
    | _ =>
      if text = transport_errClosed then
        some ⟨BasicError_UnexpectedEof, err⟩
      else if HasPrefix text http_malformedPrefix then
        some ⟨BasicError_BadDataReceived, err⟩
      else
        some ⟨BasicError_Unknown, err⟩

/-- The Go function `IsConnectionError`. -/
def IsConnectionError (err : GoError) : Option Bool :=
  let basic : Option BasicError :=
    match err with
    | .basicError c cause => some ⟨c, cause⟩
    | _ => ExtractBasicError err
  match basic with
  | none => none
  | some basic =>
    if basic.BasicError = BasicError_CantResolveHost then some true
    else if basic.BasicError = BasicError_CantFindHost then some true
    else if basic.BasicError = BasicError_CantConnectToHost then some true
    else some false

/-- The Go type `ConnectionStatus` (a `string`). -/
abbrev ConnectionStatus := String

def ConnectionStatus_NoInterfaces : ConnectionStatus := "NoInterfaces"
def ConnectionStatus_NoInterfacesUp : ConnectionStatus := "NoInterfacesUp"
def ConnectionStatus_NoNonLoopbacksFound : ConnectionStatus := "NoNonLoopbacksFound"
def ConnectionStatus_NoInternet : ConnectionStatus := "NoInternet"
def ConnectionStatus_Connected : ConnectionStatus := "Connected"

/-- The constant `net.FlagUp` (`1 << 0`). -/
def FlagUp : Nat := 1

/-- A value of the Go interface type `net.Addr`, as the prober observes it:
`ipAddr l` is a `*net.IPAddr` whose `IP.IsLoopback()` returns `l`, and `otherAddr` is
an address of any other dynamic type (`*net.IPNet`, a link-layer address, ...). -/
inductive Addr where
  | ipAddr (IsLoopback : Bool) : Addr
  | otherAddr : Addr
  deriving DecidableEq, Repr

/-- A `net.Interface`: its `Flags` and the two results of its method `Addrs()`. -/
structure Interface where
  Flags : Nat
  Addrs : List Addr
  AddrsErr : GoError
  deriving DecidableEq, Repr

/-- The error results of `http.Head`: nil, or an error of type `*url.Error` (the
documentation of `net/http`: any returned error will be of type `*url.Error`). -/
def IsHeadResult : GoError → Prop
  | .nil => True
  | .urlError _ _ => True
  | _ => False

/-- What the prober reads from outside: the two results of `net.Interfaces()`, and
`Head k u`, the error result of the `k`-th call of `http.Head` (counted from 0) when
it is made with the URL `u` (`GoError.nil` when the request succeeds), which is nil
or a `*url.Error` (`HeadResult`). -/
structure Host where
  Interfaces : List Interface
  InterfacesErr : GoError
  Head : Nat → String → GoError
  HeadResult : ∀ k u, IsHeadResult (Head k u)

/-- The two results of `CheckNetworkConnectionAndHost`, with the URLs that were
requested through `http.Head`, in order. -/
structure Outcome where
  status : ConnectionStatus
  err : GoError
  probes : List String
  deriving DecidableEq, Repr

/-- The loop `for k := range addrs` of `CheckNetworkConnectionAndHost`; the argument
and the result are the counter `nonLoopbackAddrs`. -/
def addrsLoop : List Addr → Nat → Nat
  | [], nonLoopbackAddrs => nonLoopbackAddrs
  | .ipAddr IsLoopback :: rest, nonLoopbackAddrs =>
    if IsLoopback then addrsLoop rest nonLoopbackAddrs
    else addrsLoop rest (nonLoopbackAddrs + 1)
  | .otherAddr :: rest, nonLoopbackAddrs => addrsLoop rest nonLoopbackAddrs

/-- The loop `for i := range interfaces` of `CheckNetworkConnectionAndHost`, on the
counters `interfacesUp` and `nonLoopbackAddrs`; `Except.error e` is the early
`return "", err` and `Except.ok` carries the counters after the loop. -/
def interfacesLoop : List Interface → Nat → Nat → Except GoError (Nat × Nat)
  | [], interfacesUp, nonLoopbackAddrs => .ok (interfacesUp, nonLoopbackAddrs)
  | i :: rest, interfacesUp, nonLoopbackAddrs =>
    if i.Flags &&& FlagUp = 0 then
      interfacesLoop rest interfacesUp nonLoopbackAddrs
    else if i.AddrsErr ≠ GoError.nil then
      .error i.AddrsErr
    else
      interfacesLoop rest (interfacesUp + 1) (addrsLoop i.Addrs nonLoopbackAddrs)

/-- The slice `testUrls` of `CheckNetworkConnectionAndHost`. -/
def testUrls (extraUrl : String) : List String :=
  if extraUrl ≠ "" then ["http://www.google.com", extraUrl]
  else ["http://www.google.com"]

/-- The loop `for i := range testUrls` of `CheckNetworkConnectionAndHost` and the
final `return`: `k` calls of `http.Head` were made before, with the URLs `probed`. -/
def probeLoop (Head : Nat → String → GoError) :
    List String → Nat → List String → Option Outcome
  | [], _, probed => some ⟨ConnectionStatus_Connected, GoError.nil, probed⟩
  | u :: rest, k, probed =>
    let err := Head k u
    if err ≠ GoError.nil then
      match ExtractBasicError err with
      | none => none
      | some basicErr =>
        if basicErr.BasicError = BasicError_CantFindHost ∨
            basicErr.BasicError = BasicError_CantResolveHost ∨
            basicErr.BasicError = BasicError_CantConnectToHost then
          some ⟨ConnectionStatus_NoInternet, GoError.nil, probed ++ [u]⟩
        else
          some ⟨"", err, probed ++ [u]⟩
    else
      probeLoop Head rest (k + 1) (probed ++ [u])

/-- The Go function `CheckNetworkConnectionAndHost`. -/
def CheckNetworkConnectionAndHost (h : Host) (extraUrl : String) : Option Outcome :=
  if h.InterfacesErr ≠ GoError.nil then
    some ⟨"", h.InterfacesErr, []⟩
  else if h.Interfaces.length = 0 then
    some ⟨ConnectionStatus_NoInterfaces, GoError.nil, []⟩
  else
    match interfacesLoop h.Interfaces 0 0 with
    | .error err => some ⟨"", err, []⟩
    | .ok (interfacesUp, nonLoopbackAddrs) =>
      if interfacesUp = 0 then
        some ⟨ConnectionStatus_NoInterfacesUp, GoError.nil, []⟩
      else if nonLoopbackAddrs = 0 then
        some ⟨ConnectionStatus_NoNonLoopbacksFound, GoError.nil, []⟩
      else
        probeLoop h.Head (testUrls extraUrl) 0 []

/-- The Go function `CheckNetworkConnection`. -/
def CheckNetworkConnection (h : Host) : Option Outcome :=
  CheckNetworkConnectionAndHost h ""

/-! ## Notions used in the statements -/

/-- Membership in the six constants of type `BasicErrorType`. -/
def IsTaxonomy (c : BasicErrorType) : Prop :=
  c = BasicError_CantResolveHost ∨ c = BasicError_CantFindHost ∨
  c = BasicError_CantConnectToHost ∨ c = BasicError_UnexpectedEof ∨
  c = BasicError_BadDataReceived ∨ c = BasicError_Unknown

instance (c : BasicErrorType) : Decidable (IsTaxonomy c) := by
  unfold IsTaxonomy
  infer_instance

/-- The interfaces of a snapshot whose `Flags` have the bit `net.FlagUp`. -/
def upInterfaces (l : List Interface) : List Interface :=
  l.filter (fun i => decide (i.Flags &&& FlagUp ≠ 0))

/-- The number of non-loopback `*net.IPAddr` addresses of the up interfaces. -/
def nonLoopbackIPAddrs (l : List Interface) : Nat :=
  ((upInterfaces l).map (fun i => i.Addrs.count (Addr.ipAddr false))).sum

/-- The interface stage of `CheckNetworkConnectionAndHost` (lines 194-228) is passed
without a `return`: the enumeration succeeds, `Addrs()` succeeds on every up
interface, some interface is up and some address is counted. -/
def InterfaceChecksPass (h : Host) : Prop :=
  h.InterfacesErr = GoError.nil ∧
  (∀ i ∈ h.Interfaces, i.Flags &&& FlagUp ≠ 0 → i.AddrsErr = GoError.nil) ∧
  upInterfaces h.Interfaces ≠ [] ∧
  nonLoopbackIPAddrs h.Interfaces ≠ 0

instance (h : Host) : Decidable (InterfaceChecksPass h) := by
  unfold InterfaceChecksPass
  infer_instance

/-- The test of lines 243-245 on the category of a classified probe error. -/
def IsConnectivity (c : BasicErrorType) : Prop :=
  c = BasicError_CantFindHost ∨ c = BasicError_CantResolveHost ∨
  c = BasicError_CantConnectToHost

instance (c : BasicErrorType) : Decidable (IsConnectivity c) := by
  unfold IsConnectivity
  infer_instance

/-- A snapshot that passes the interface stage: a loopback interface and an up
interface with one non-loopback `*net.IPAddr` address. -/
def sampleInterfaces : List Interface :=
  [⟨1, [Addr.ipAddr true], GoError.nil⟩, ⟨1, [Addr.ipAddr false], GoError.nil⟩]

/-- The error of a refused connection, as `http.Head` returns it:
`&url.Error{Op: "Head", URL: "http://www.google.com", Err: &net.OpError{Op: "dial",
Net: "tcp", Err: &net.OpError{Op: "ConnectEx", Net: "tcp", Err: errors.New("refused")}}}`. -/
def sampleRefused : GoError :=
  GoError.urlError "Head \"http://www.google.com\": dial tcp: ConnectEx tcp: refused"
    (GoError.opError "dial tcp: ConnectEx tcp: refused" "dial"
      (GoError.opError "ConnectEx tcp: refused" "ConnectEx" (GoError.other "refused")))

/-- The error of a malformed response, as `http.Head` returns it:
`&url.Error{Op: "Head", URL: "http://example.com", Err: errors.New("malformed HTTP response")}`. -/
def sampleMalformed : GoError :=
  GoError.urlError "Head \"http://example.com\": malformed HTTP response"
    (GoError.other "malformed HTTP response")

/-! ## Shared lemmas on `ExtractBasicError` -/

theorem ExtractBasicError_nil : ExtractBasicError GoError.nil = none := rfl

/-- The classifier panics exactly when the call `err.Error()` of line 130 does. -/
theorem ExtractBasicError_eq_none_iff (e : GoError) :
    ExtractBasicError e = none ↔ e.Error = none := by
  unfold ExtractBasicError
  cases hE : e.Error with
  | none => simp
  | some text =>
    simp only [reduceCtorEq, iff_false]
    cases e with
    | nil => simp [GoError.Error] at hE
    | urlError msg Err =>
      simp only []
      split <;> (try split) <;> (try split) <;> (try split) <;> simp
    | opError msg Op Err =>
      simp only []
      split <;> (try split) <;> (try split) <;> simp
    | syscallError msg sc Err =>
      simp only []
      split <;> (try split) <;> simp
    | eof => simp
    | basicError c cause =>
      simp only []
      split <;> (try split) <;> simp
    | other msg =>
      simp only []
      split <;> (try split) <;> simp

/-- When the call `err.Error()` returns, the classifier returns, keeps the error as
`Cause`, and assigns one of the six constants. -/
theorem ExtractBasicError_returns (e : GoError) (text : String)
    (h : e.Error = some text) :
    ∃ c, ExtractBasicError e = some ⟨c, e⟩ ∧ IsTaxonomy c := by
  unfold ExtractBasicError IsTaxonomy
  rw [h]
  cases e with
  | nil => simp [GoError.Error] at h
  | urlError msg Err =>
    simp only []
    split <;> (try split) <;> (try split) <;> (try split) <;> simp
  | opError msg Op Err =>
    simp only []
    split <;> (try split) <;> (try split) <;> simp
  | syscallError msg sc Err =>
    simp only []
    split <;> (try split) <;> simp
  | eof => simp
  | basicError c cause =>
    simp only []
    split <;> (try split) <;> simp
  | other msg =>
    simp only []
    split <;> (try split) <;> simp

/-- Whatever the classifier returns keeps the classified error as `Cause` and has one
of the six constants as category. -/
theorem ExtractBasicError_some (e : GoError) (b : BasicError)
    (h : ExtractBasicError e = some b) :
    b.Cause = e ∧ IsTaxonomy b.BasicError := by
  cases hE : e.Error with
  | none =>
    rw [(ExtractBasicError_eq_none_iff e).mpr hE] at h
    cases h
  | some text =>
    obtain ⟨c, hc, htax⟩ := ExtractBasicError_returns e text hE
    rw [hc] at h
    cases h
    exact ⟨rfl, htax⟩

/-- The call `Error()` returns on every result of `http.Head` that is not nil. -/
theorem IsHeadResult_Error (e : GoError) (hres : IsHeadResult e) (hne : e ≠ GoError.nil) :
    ∃ text, e.Error = some text := by
  cases e with
  | nil => exact absurd rfl hne
  | urlError msg Err => exact ⟨msg, rfl⟩
  | opError msg Op Err => exact absurd hres (by simp [IsHeadResult])
  | syscallError msg sc Err => exact absurd hres (by simp [IsHeadResult])
  | eof => exact absurd hres (by simp [IsHeadResult])
  | basicError c cause => exact absurd hres (by simp [IsHeadResult])
  | other msg => exact absurd hres (by simp [IsHeadResult])

/-- Classifying a `BasicError` value whose category is one of the six constants:
its text is the category, which no string rule matches. -/
theorem ExtractBasicError_basicError (c : BasicErrorType) (cause : GoError)
    (hc : IsTaxonomy c) :
    ExtractBasicError (GoError.basicError c cause) =
      some ⟨BasicError_Unknown, GoError.basicError c cause⟩ := by
  rcases hc with h | h | h | h | h | h <;> subst h <;> rfl

/-- A value that is neither a `*url.Error`, a `*net.OpError` nor `io.EOF` is
classified by the two string rules alone. -/
theorem ExtractBasicError_string_rules (err : GoError) (text : String)
    (hurl : ∀ m e, err ≠ GoError.urlError m e)
    (hop : ∀ m o e, err ≠ GoError.opError m o e)
    (heof : err ≠ GoError.eof)
    (htext : err.Error = some text) :
    ExtractBasicError err =
      if text = transport_errClosed then some ⟨BasicError_UnexpectedEof, err⟩
      else if HasPrefix text http_malformedPrefix then
        some ⟨BasicError_BadDataReceived, err⟩
      else some ⟨BasicError_Unknown, err⟩ := by
  unfold ExtractBasicError
  rw [htext]
  cases err with
  | nil => simp [GoError.Error] at htext
  | urlError msg Err => exact absurd rfl (hurl msg Err)
  | opError msg Op Err => exact absurd rfl (hop msg Op Err)
  | eof => exact absurd rfl heof
  | syscallError msg sc Err => rfl
  | basicError c cause => rfl
  | other msg => rfl

/-! ## The classifier: `ExtractBasicError` -/

/-- C1, as stated, fails at `io.EOF`: `ExtractBasicError(io.EOF)` is
`BasicError{UnexpectedEof, io.EOF}`, and `ExtractBasicError` applied to that value
returns the category `Unknown` with the `BasicError` as its `Cause`, not the
`BasicError` unchanged. -/
theorem reclassify_eof_changes_category :
    ExtractBasicError GoError.eof = some ⟨BasicError_UnexpectedEof, GoError.eof⟩ ∧
    ExtractBasicError (BasicError.toError ⟨BasicError_UnexpectedEof, GoError.eof⟩) =
      some ⟨BasicError_Unknown,
        GoError.basicError BasicError_UnexpectedEof GoError.eof⟩ ∧
    ExtractBasicError (BasicError.toError ⟨BasicError_UnexpectedEof, GoError.eof⟩) ≠
      some ⟨BasicError_UnexpectedEof, GoError.eof⟩ ∧
    BasicError_Unknown ≠ BasicError_UnexpectedEof := by
  refine ⟨rfl, rfl, ?_, ?_⟩ <;> decide

/-- C1, amended: for every error `e` on which the call `e.Error()` returns (so `e` is
not nil), `ExtractBasicError(e)` returns a `BasicError` `b`, and `ExtractBasicError`
applied to `b` returns the category `Unknown` with `b` as its `Cause`; so the
category of the second classification is the category of `b` exactly when that
category is `Unknown`. -/
theorem reclassify_yields_unknown (e : GoError) (text : String)
    (htext : e.Error = some text) :
    ∃ b, ExtractBasicError e = some b ∧
      ExtractBasicError b.toError = some ⟨BasicError_Unknown, b.toError⟩ ∧
      ((∃ b2, ExtractBasicError b.toError = some b2 ∧ b2.BasicError = b.BasicError) ↔
        b.BasicError = BasicError_Unknown) := by
  obtain ⟨c, hc, htax⟩ := ExtractBasicError_returns e text htext
  have hre := ExtractBasicError_basicError c e htax
  refine ⟨⟨c, e⟩, hc, hre, ?_⟩
  simp only [BasicError.toError, hre, Option.some.injEq]
  constructor
  · rintro ⟨b2, hb2, hcat⟩
    rw [← hcat, ← hb2]
  · intro hu
    exact ⟨_, rfl, hu.symm⟩

theorem reclassify_yields_unknown_witness :
    ∃ b, ExtractBasicError
        (GoError.urlError "Head \"http://www.google.com\": dial tcp: lookup www.google.com: no such host"
          (GoError.opError "dial tcp: lookup www.google.com: no such host" "dial"
            (GoError.other "lookup www.google.com: no such host"))) = some b ∧
      ExtractBasicError b.toError = some ⟨BasicError_Unknown, b.toError⟩ ∧
      ((∃ b2, ExtractBasicError b.toError = some b2 ∧ b2.BasicError = b.BasicError) ↔
        b.BasicError = BasicError_Unknown) :=
  reclassify_yields_unknown _
    "Head \"http://www.google.com\": dial tcp: lookup www.google.com: no such host" rfl

/-- C2, as stated, fails: the `*url.Error`
`{Op: "Head", URL: "http://www.google.com", Err: &net.OpError{Op: "WSARecv", Net: "tcp", Err: io.EOF}}`
is classified `Unknown`, not `UnexpectedEof`. -/
theorem url_wrapped_WSARecv_is_unknown :
    ExtractBasicError
        (GoError.urlError "Head \"http://www.google.com\": WSARecv tcp: EOF"
          (GoError.opError "WSARecv tcp: EOF" "WSARecv" GoError.eof)) =
      some ⟨BasicError_Unknown,
        GoError.urlError "Head \"http://www.google.com\": WSARecv tcp: EOF"
          (GoError.opError "WSARecv tcp: EOF" "WSARecv" GoError.eof)⟩ ∧
    BasicError_Unknown ≠ BasicError_UnexpectedEof := by
  refine ⟨rfl, ?_⟩
  decide

/-- C2, amended: the receive-marker rule is a rule on the outermost error. Every
`*net.OpError` that is itself the classified error (not wrapped in a `*url.Error`),
has `Op` `"WSARecv"` and an `Err` on which `Error()` returns (so `Err` is not nil)
yields `UnexpectedEof`, whereas every `*url.Error` wrapping a `*net.OpError` with
`Op` `"WSARecv"` yields `Unknown`. -/
theorem WSARecv_rule (msg : String) (Err : GoError) (text : String)
    (htext : Err.Error = some text) :
    ExtractBasicError (GoError.opError msg "WSARecv" Err) =
      some ⟨BasicError_UnexpectedEof, GoError.opError msg "WSARecv" Err⟩ ∧
    ∀ (urlMsg msg2 : String) (Err2 : GoError),
      ExtractBasicError (GoError.urlError urlMsg (GoError.opError msg2 "WSARecv" Err2)) =
        some ⟨BasicError_Unknown,
          GoError.urlError urlMsg (GoError.opError msg2 "WSARecv" Err2)⟩ := by
  constructor
  · simp [ExtractBasicError, GoError.Error, htext]
  · intro urlMsg msg2 Err2
    simp [ExtractBasicError, GoError.Error]

theorem WSARecv_rule_witness :
    ExtractBasicError (GoError.opError "WSARecv tcp: EOF" "WSARecv" GoError.eof) =
      some ⟨BasicError_UnexpectedEof,
        GoError.opError "WSARecv tcp: EOF" "WSARecv" GoError.eof⟩ :=
  (WSARecv_rule "WSARecv tcp: EOF" GoError.eof "EOF" rfl).1

/-- C3, as stated, fails: `&net.OpError{Op: "malformed HTTP response", Err: io.EOF}`
is not a `*url.Error`, is not `io.EOF`, its text `"malformed HTTP response: EOF"` is
not the transport-closed string and starts with `"malformed HTTP response"`, yet it
is classified `Unknown`, not `BadDataReceived`. -/
theorem malformed_text_on_opError_is_unknown :
    (∀ m e, GoError.opError "malformed HTTP response: EOF" "malformed HTTP response"
        GoError.eof ≠ GoError.urlError m e) ∧
    GoError.opError "malformed HTTP response: EOF" "malformed HTTP response"
        GoError.eof ≠ GoError.eof ∧
    GoError.Error (GoError.opError "malformed HTTP response: EOF"
        "malformed HTTP response" GoError.eof) = some "malformed HTTP response: EOF" ∧
    "malformed HTTP response: EOF" ≠ transport_errClosed ∧
    HasPrefix "malformed HTTP response: EOF" http_malformedPrefix = true ∧
    ExtractBasicError (GoError.opError "malformed HTTP response: EOF"
        "malformed HTTP response" GoError.eof) =
      some ⟨BasicError_Unknown, GoError.opError "malformed HTTP response: EOF"
        "malformed HTTP response" GoError.eof⟩ ∧
    BasicError_Unknown ≠ BasicError_BadDataReceived := by
  refine ⟨?_, ?_, rfl, ?_, rfl, rfl, ?_⟩
  · intro m e hne
    cases hne
  · intro hne
    cases hne
  · decide
  · decide

/-- C3, amended: for every error that is neither a `*url.Error` nor a `*net.OpError`
(whatever they wrap) and is not `io.EOF`, if its `Error()` text is not the
transport-closed string and starts with `"malformed HTTP response"`, then
`ExtractBasicError` returns the category `BadDataReceived`. -/
theorem malformed_response_rule (err : GoError) (text : String)
    (hurl : ∀ m e, err ≠ GoError.urlError m e)
    (hop : ∀ m o e, err ≠ GoError.opError m o e)
    (heof : err ≠ GoError.eof)
    (htext : err.Error = some text)
    (hclosed : text ≠ transport_errClosed)
    (hpre : HasPrefix text http_malformedPrefix = true) :
    ExtractBasicError err = some ⟨BasicError_BadDataReceived, err⟩ := by
  rw [ExtractBasicError_string_rules err text hurl hop heof htext]
  simp [hclosed, hpre]

theorem malformed_response_rule_witness :
    ExtractBasicError (GoError.other "malformed HTTP response \"<html>\"") =
      some ⟨BasicError_BadDataReceived,
        GoError.other "malformed HTTP response \"<html>\""⟩ :=
  malformed_response_rule (GoError.other "malformed HTTP response \"<html>\"")
    "malformed HTTP response \"<html>\""
    (by intro m e hne; cases hne) (by intro m o e hne; cases hne)
    (by intro hne; cases hne) rfl (by decide) rfl

/-- C4, as stated, fails:
`&net.OpError{Op: "net/http", Err: errors.New("transport closed before response was received")}`
is not a `*url.Error` and is not `io.EOF`, its text (`Op + ": " + Err.Error()`) is
exactly the transport-closed string, yet it is classified `Unknown`, not
`UnexpectedEof`. -/
theorem closed_text_on_opError_is_unknown :
    (∀ m e, GoError.opError "net/http: transport closed before response was received"
        "net/http" (GoError.other "transport closed before response was received") ≠
      GoError.urlError m e) ∧
    GoError.opError "net/http: transport closed before response was received"
        "net/http" (GoError.other "transport closed before response was received") ≠
      GoError.eof ∧
    GoError.Error (GoError.opError
        "net/http: transport closed before response was received"
        "net/http" (GoError.other "transport closed before response was received")) =
      some transport_errClosed ∧
    ExtractBasicError (GoError.opError
        "net/http: transport closed before response was received"
        "net/http" (GoError.other "transport closed before response was received")) =
      some ⟨BasicError_Unknown, GoError.opError
        "net/http: transport closed before response was received"
        "net/http" (GoError.other "transport closed before response was received")⟩ ∧
    BasicError_Unknown ≠ BasicError_UnexpectedEof := by
  refine ⟨?_, ?_, rfl, rfl, ?_⟩
  · intro m e hne
    cases hne
  · intro hne
    cases hne
  · decide

/-- C4, amended: for every error that is neither a `*url.Error` nor a `*net.OpError`
(whatever they wrap) and is not `io.EOF`, if its `Error()` text is exactly
`"net/http: transport closed before response was received"`, then
`ExtractBasicError` returns the category `UnexpectedEof`. -/
theorem transport_closed_rule (err : GoError)
    (hurl : ∀ m e, err ≠ GoError.urlError m e)
    (hop : ∀ m o e, err ≠ GoError.opError m o e)
    (heof : err ≠ GoError.eof)
    (htext : err.Error =
      some "net/http: transport closed before response was received") :
    ExtractBasicError err = some ⟨BasicError_UnexpectedEof, err⟩ := by
  rw [ExtractBasicError_string_rules err _ hurl hop heof htext]
  simp [transport_errClosed]

theorem transport_closed_rule_witness :
    ExtractBasicError
        (GoError.other "net/http: transport closed before response was received") =
      some ⟨BasicError_UnexpectedEof,
        GoError.other "net/http: transport closed before response was received"⟩ :=
  transport_closed_rule
    (GoError.other "net/http: transport closed before response was received")
    (by intro m e hne; cases hne) (by intro m o e hne; cases hne)
    (by intro hne; cases hne) rfl

/-- C5: every `*url.Error` wrapping a `*net.OpError` with `Op` `"dial"` that wraps a
`*net.OpError` with `Op` `"ConnectEx"` is classified `CantConnectToHost`, whatever
the texts and the innermost cause are, in particular when the text starts with
`"malformed HTTP response"` or is the transport-closed string; the result is neither
`BadDataReceived` nor `UnexpectedEof`. -/
theorem dial_ConnectEx_precedence (msg msg1 msg2 : String) (Err : GoError) :
    ExtractBasicError
        (GoError.urlError msg
          (GoError.opError msg1 "dial" (GoError.opError msg2 "ConnectEx" Err))) =
      some ⟨BasicError_CantConnectToHost,
        GoError.urlError msg
          (GoError.opError msg1 "dial" (GoError.opError msg2 "ConnectEx" Err))⟩ ∧
    BasicError_CantConnectToHost ≠ BasicError_BadDataReceived ∧
    BasicError_CantConnectToHost ≠ BasicError_UnexpectedEof := by
  refine ⟨?_, ?_, ?_⟩
  · simp [ExtractBasicError, GoError.Error]
  · decide
  · decide

/-- C6: every `*url.Error` wrapping a `*net.OpError` with `Op` `"dial"` whose `Err`
is not a `*net.OpError` with `Op` `"ConnectEx"` (an `*os.SyscallError`, any other
error, or nil) is classified `CantResolveHost`. -/
theorem dial_default (msg msg1 : String) (inner : GoError)
    (h : ∀ m e, inner ≠ GoError.opError m "ConnectEx" e) :
    ExtractBasicError (GoError.urlError msg (GoError.opError msg1 "dial" inner)) =
      some ⟨BasicError_CantResolveHost,
        GoError.urlError msg (GoError.opError msg1 "dial" inner)⟩ := by
  cases inner with
  | opError m Op2 e =>
    have hne : Op2 ≠ "ConnectEx" := by
      intro heq
      exact h m e (by rw [heq])
    simp [ExtractBasicError, GoError.Error, hne]
  | nil => simp [ExtractBasicError, GoError.Error]
  | urlError m e => simp [ExtractBasicError, GoError.Error]
  | syscallError m sc e => simp [ExtractBasicError, GoError.Error]
  | eof => simp [ExtractBasicError, GoError.Error]
  | basicError c cause => simp [ExtractBasicError, GoError.Error]
  | other m => simp [ExtractBasicError, GoError.Error]

theorem dial_default_witness :
    ExtractBasicError
        (GoError.urlError "Head \"http://nohost\": dial tcp: GetAddrInfoW: no such host"
          (GoError.opError "dial tcp: GetAddrInfoW: no such host" "dial"
            (GoError.syscallError "GetAddrInfoW: no such host" "GetAddrInfoW"
              (GoError.other "no such host")))) =
      some ⟨BasicError_CantResolveHost,
        GoError.urlError "Head \"http://nohost\": dial tcp: GetAddrInfoW: no such host"
          (GoError.opError "dial tcp: GetAddrInfoW: no such host" "dial"
            (GoError.syscallError "GetAddrInfoW: no such host" "GetAddrInfoW"
              (GoError.other "no such host")))⟩ :=
  dial_default _ _ _ (by intro m e hne; cases hne)

/-- C7: every `*url.Error` wrapping a `*net.OpError` with `Op` `"local error"` is
classified `CantFindHost`, whatever the inner cause and the texts are. -/
theorem local_error_rule (msg msg1 : String) (inner : GoError) :
    ExtractBasicError
        (GoError.urlError msg (GoError.opError msg1 "local error" inner)) =
      some ⟨BasicError_CantFindHost,
        GoError.urlError msg (GoError.opError msg1 "local error" inner)⟩ := by
  simp [ExtractBasicError, GoError.Error]

/-- On a `BasicError` value `IsConnectionError` tests the value's own category. -/
theorem IsConnectionError_basicError (c : BasicErrorType) (cause : GoError) :
    IsConnectionError (GoError.basicError c cause) =
      some (decide (c = BasicError_CantResolveHost ∨ c = BasicError_CantFindHost ∨
        c = BasicError_CantConnectToHost)) := by
  simp only [IsConnectionError]
  by_cases h1 : c = BasicError_CantResolveHost
  · simp [h1]
  · by_cases h2 : c = BasicError_CantFindHost
    · simp [h2]
    · by_cases h3 : c = BasicError_CantConnectToHost
      · simp [h3]
      · simp [h1, h2, h3]

/-- On any other value `IsConnectionError` tests the category that
`ExtractBasicError` assigns, and panics when `ExtractBasicError` does. -/
theorem IsConnectionError_classifies (err : GoError)
    (hne : ∀ c cause, err ≠ GoError.basicError c cause) :
    IsConnectionError err =
      (ExtractBasicError err).bind (fun b => IsConnectionError b.toError) := by
  have hstep : IsConnectionError err =
      match ExtractBasicError err with
      | none => none
      | some basic =>
        if basic.BasicError = BasicError_CantResolveHost then some true
        else if basic.BasicError = BasicError_CantFindHost then some true
        else if basic.BasicError = BasicError_CantConnectToHost then some true
        else some false := by
    cases err with
    | basicError c cause => exact absurd rfl (hne c cause)
    | nil => rfl
    | urlError m e => rfl
    | opError m o e => rfl
    | syscallError m sc e => rfl
    | eof => rfl
    | other m => rfl
  rw [hstep]
  cases ExtractBasicError err with
  | none => rfl
  | some b => rfl

/-- C8: for every error `err` on which the call `err.Error()` returns,
`IsConnectionError(err)` returns true exactly when the category of `err` is
`CantResolveHost`, `CantFindHost` or `CantConnectToHost`, where the category of a
`BasicError` value is its own field (no classification is made) and the category of
any other error is that of `ExtractBasicError(err)`, and then
`IsConnectionError(ExtractBasicError(err))` equals `IsConnectionError(err)`; for
every error `e` that is not a `BasicError`, `IsConnectionError(ExtractBasicError(e))`
and `IsConnectionError(e)` are the same outcome, a panic included. -/
theorem IsConnectionError_iff (err : GoError) (text : String)
    (htext : err.Error = some text) :
    (∃ cat : BasicErrorType,
      (∀ c cause, err = GoError.basicError c cause → cat = c) ∧
      ((∀ c cause, err ≠ GoError.basicError c cause) →
        ∃ b, ExtractBasicError err = some b ∧ cat = b.BasicError ∧
          IsConnectionError b.toError = IsConnectionError err) ∧
      IsConnectionError err =
        some (decide (cat = BasicError_CantResolveHost ∨ cat = BasicError_CantFindHost ∨
          cat = BasicError_CantConnectToHost))) ∧
    ∀ e : GoError, (∀ c cause, e ≠ GoError.basicError c cause) →
      (ExtractBasicError e).bind (fun b => IsConnectionError b.toError) =
        IsConnectionError e := by
  constructor
  · by_cases hb : ∃ c cause, err = GoError.basicError c cause
    · obtain ⟨c0, cause0, rfl⟩ := hb
      refine ⟨c0, ?_, ?_, IsConnectionError_basicError c0 cause0⟩
      · intro c1 cause1 heq
        cases heq
        rfl
      · intro hne
        exact absurd rfl (hne c0 cause0)
    · have hne : ∀ c cause, err ≠ GoError.basicError c cause :=
        fun c cause heq => hb ⟨c, cause, heq⟩
      obtain ⟨c, hc, _⟩ := ExtractBasicError_returns err text htext
      have hval : IsConnectionError err = IsConnectionError (GoError.basicError c err) := by
        rw [IsConnectionError_classifies err hne, hc]
        rfl
      refine ⟨c, ?_, ?_, ?_⟩
      · intro c1 cause1 heq
        exact absurd heq (hne c1 cause1)
      · intro _
        exact ⟨⟨c, err⟩, hc, rfl, hval.symm⟩
      · rw [hval]
        exact IsConnectionError_basicError c err
  · intro e hne
    exact (IsConnectionError_classifies e hne).symm

theorem IsConnectionError_iff_witness :
    IsConnectionError (GoError.urlError "Head \"http://h\": local error: no route"
        (GoError.opError "local error: no route" "local error" (GoError.other "no route"))) =
      some true :=
  (IsConnectionError_iff (GoError.urlError "Head \"http://h\": local error: no route"
      (GoError.opError "local error: no route" "local error" (GoError.other "no route")))
    "Head \"http://h\": local error: no route" rfl).1.elim
    (fun cat hcat =>
      (hcat.2.1 (by intro c cause heq; cases heq)).elim
        (fun b hb => by
          have hcat3 := hcat.2.2
          rw [hcat3]
          have hbval : b = ⟨BasicError_CantFindHost, GoError.urlError
              "Head \"http://h\": local error: no route"
              (GoError.opError "local error: no route" "local error"
                (GoError.other "no route"))⟩ :=
            Option.some.inj (hb.1.symm.trans rfl)
          have hc : cat = BasicError_CantFindHost := by rw [hb.2.1, hbval]
          rw [hc]
          rfl))

/-- C9, as stated, fails: `&net.OpError{Op: "dial"}`, whose `Err` is nil, is a
non-nil error on which `ExtractBasicError` returns no `BasicError`: the call
`err.Error()` of line 130 panics in `(*net.OpError).Error`, at `e.Err.Error()`. -/
theorem ExtractBasicError_panics_on_nil_Err :
    GoError.opError "" "dial" GoError.nil ≠ GoError.nil ∧
    ExtractBasicError (GoError.opError "" "dial" GoError.nil) = none := by
  constructor
  · decide
  · rfl

/-- C9, amended: for every error on which the call `err.Error()` of line 130 returns
(so the error is not nil, and no `*net.OpError` or `*os.SyscallError` from which the
call descends has a nil `Err`), `ExtractBasicError` returns a `BasicError` whose
category is one of the six pairwise different constants `CantResolveHost`,
`CantFindHost`, `CantConnectToHost`, `UnexpectedEof`, `BadDataReceived`, `Unknown`;
and the category is `Unknown` when no rule matches: the error is not `io.EOF`, its
text is neither the transport-closed string nor starts with
`"malformed HTTP response"`, and it is not a `*net.OpError`, bare or wrapped in a
`*url.Error`, with `Op` `"dial"`, `"local error"` or `"WSARecv"`. -/
theorem ExtractBasicError_total (err : GoError) (text : String)
    (htext : err.Error = some text) :
    ∃ b, ExtractBasicError err = some b ∧
      IsTaxonomy b.BasicError ∧
      [BasicError_CantResolveHost, BasicError_CantFindHost, BasicError_CantConnectToHost,
        BasicError_UnexpectedEof, BasicError_BadDataReceived, BasicError_Unknown].Nodup ∧
      (err ≠ GoError.eof →
        text ≠ transport_errClosed → HasPrefix text http_malformedPrefix = false →
        (∀ m m1 Op inner, err = GoError.urlError m (GoError.opError m1 Op inner) →
          Op ≠ "dial" ∧ Op ≠ "local error" ∧ Op ≠ "WSARecv") →
        (∀ m Op inner, err = GoError.opError m Op inner →
          Op ≠ "dial" ∧ Op ≠ "local error" ∧ Op ≠ "WSARecv") →
        b.BasicError = BasicError_Unknown) := by
  obtain ⟨c, hc, htax⟩ := ExtractBasicError_returns err text htext
  refine ⟨⟨c, err⟩, hc, htax, by decide, ?_⟩
  intro heof h1 h2 hurl hop
  unfold ExtractBasicError at hc
  rw [htext] at hc
  cases err with
  | nil => simp [GoError.Error] at htext
  | eof => exact absurd rfl heof
  | urlError m e =>
    cases e with
    | opError m1 Op inner =>
      obtain ⟨h3, h4, _⟩ := hurl m m1 Op inner rfl
      simp [h3, h4] at hc
      exact hc.symm
    | nil => simp at hc; exact hc.symm
    | urlError m1 e1 => simp at hc; exact hc.symm
    | syscallError m1 sc e1 => simp at hc; exact hc.symm
    | eof => simp at hc; exact hc.symm
    | basicError c1 cause => simp at hc; exact hc.symm
    | other m1 => simp at hc; exact hc.symm
  | opError m Op inner =>
    obtain ⟨h3, _, h5⟩ := hop m Op inner rfl
    simp [h3, h5] at hc
    exact hc.symm
  | syscallError m sc e =>
    simp [h1, h2] at hc
    exact hc.symm
  | basicError c1 cause =>
    simp [h1, h2] at hc
    exact hc.symm
  | other m =>
    simp [h1, h2] at hc
    exact hc.symm

theorem ExtractBasicError_total_witness :
    ∃ b, ExtractBasicError (GoError.other "unexpected response") = some b ∧
      IsTaxonomy b.BasicError ∧
      [BasicError_CantResolveHost, BasicError_CantFindHost, BasicError_CantConnectToHost,
        BasicError_UnexpectedEof, BasicError_BadDataReceived, BasicError_Unknown].Nodup ∧
      (GoError.other "unexpected response" ≠ GoError.eof →
        "unexpected response" ≠ transport_errClosed →
        HasPrefix "unexpected response" http_malformedPrefix = false →
        (∀ m m1 Op inner, GoError.other "unexpected response" =
            GoError.urlError m (GoError.opError m1 Op inner) →
          Op ≠ "dial" ∧ Op ≠ "local error" ∧ Op ≠ "WSARecv") →
        (∀ m Op inner, GoError.other "unexpected response" = GoError.opError m Op inner →
          Op ≠ "dial" ∧ Op ≠ "local error" ∧ Op ≠ "WSARecv") →
        b.BasicError = BasicError_Unknown) :=
  ExtractBasicError_total (GoError.other "unexpected response") "unexpected response" rfl

/-! ## The prober: `CheckNetworkConnectionAndHost` -/

theorem addrsLoop_eq (l : List Addr) (n : Nat) :
    addrsLoop l n = n + l.count (Addr.ipAddr false) := by
  induction l generalizing n with
  | nil => simp [addrsLoop]
  | cons a rest ih =>
    cases a with
    | ipAddr lb =>
      cases lb with
      | true => simp [addrsLoop, ih]
      | false =>
        simp only [addrsLoop, ih, List.count_cons_self]
        simp
        omega
    | otherAddr => simp [addrsLoop, ih]

/-- When `Addrs()` fails on no up interface, the interface loop runs to its end and
leaves the number of up interfaces and of their non-loopback `*net.IPAddr` addresses
in the two counters. -/
theorem interfacesLoop_ok (l : List Interface) (up n : Nat)
    (hok : ∀ i ∈ l, i.Flags &&& FlagUp ≠ 0 → i.AddrsErr = GoError.nil) :
    interfacesLoop l up n =
      .ok (up + (upInterfaces l).length, n + nonLoopbackIPAddrs l) := by
  induction l generalizing up n with
  | nil => simp [interfacesLoop, upInterfaces, nonLoopbackIPAddrs]
  | cons i rest ih =>
    have hrest : ∀ j ∈ rest, j.Flags &&& FlagUp ≠ 0 → j.AddrsErr = GoError.nil :=
      fun j hj => hok j (List.mem_cons_of_mem _ hj)
    by_cases hup : i.Flags &&& FlagUp = 0
    · simp [interfacesLoop, hup, ih _ _ hrest, upInterfaces, nonLoopbackIPAddrs]
    · have herr : i.AddrsErr = GoError.nil := hok i (List.mem_cons_self _ _) hup
      simp [interfacesLoop, hup, herr, ih _ _ hrest, upInterfaces, nonLoopbackIPAddrs,
        addrsLoop_eq]
      omega

/-- The prober after a successful enumeration of a non-empty snapshot. -/
theorem CheckNetworkConnectionAndHost_enumerated (h : Host) (extraUrl : String)
    (herr : h.InterfacesErr = GoError.nil) (hne : h.Interfaces ≠ [])
    (hok : ∀ i ∈ h.Interfaces, i.Flags &&& FlagUp ≠ 0 → i.AddrsErr = GoError.nil) :
    CheckNetworkConnectionAndHost h extraUrl =
      if (upInterfaces h.Interfaces).length = 0 then
        some ⟨ConnectionStatus_NoInterfacesUp, GoError.nil, []⟩
      else if nonLoopbackIPAddrs h.Interfaces = 0 then
        some ⟨ConnectionStatus_NoNonLoopbacksFound, GoError.nil, []⟩
      else probeLoop h.Head (testUrls extraUrl) 0 [] := by
  have hlen : h.Interfaces.length ≠ 0 := by
    intro h0
    exact hne (List.length_eq_zero.mp h0)
  simp only [CheckNetworkConnectionAndHost, herr, hlen, interfacesLoop_ok _ _ _ hok]
  simp

/-- C10: when `net.Interfaces()` returns no error, `CheckNetworkConnectionAndHost`
returns `(NoInterfaces, nil)` for zero interfaces; otherwise `(NoInterfacesUp, nil)`
when no interface has the up flag; otherwise `(NoNonLoopbacksFound, nil)` when
`Addrs()` succeeds on the up interfaces and none of their addresses is a
non-loopback `*net.IPAddr`; in the three cases no call of `http.Head` is made. -/
theorem interface_stage_status (h : Host) (extraUrl : String)
    (herr : h.InterfacesErr = GoError.nil) :
    (h.Interfaces = [] →
      CheckNetworkConnectionAndHost h extraUrl =
        some ⟨ConnectionStatus_NoInterfaces, GoError.nil, []⟩) ∧
    (h.Interfaces ≠ [] → (∀ i ∈ h.Interfaces, i.Flags &&& FlagUp = 0) →
      CheckNetworkConnectionAndHost h extraUrl =
        some ⟨ConnectionStatus_NoInterfacesUp, GoError.nil, []⟩) ∧
    (h.Interfaces ≠ [] → (∃ i ∈ h.Interfaces, i.Flags &&& FlagUp ≠ 0) →
      (∀ i ∈ h.Interfaces, i.Flags &&& FlagUp ≠ 0 →
        i.AddrsErr = GoError.nil ∧ ∀ a ∈ i.Addrs, a ≠ Addr.ipAddr false) →
      CheckNetworkConnectionAndHost h extraUrl =
        some ⟨ConnectionStatus_NoNonLoopbacksFound, GoError.nil, []⟩) := by
  refine ⟨?_, ?_, ?_⟩
  · intro hnil
    simp [CheckNetworkConnectionAndHost, herr, hnil]
  · intro hne hdown
    have hok : ∀ i ∈ h.Interfaces, i.Flags &&& FlagUp ≠ 0 → i.AddrsErr = GoError.nil :=
      fun i hi hup => absurd (hdown i hi) hup
    rw [CheckNetworkConnectionAndHost_enumerated h extraUrl herr hne hok]
    have hup : upInterfaces h.Interfaces = [] := by
      simp only [upInterfaces, List.filter_eq_nil_iff]
      intro i hi
      simp [hdown i hi]
    simp [hup]
  · intro hne hup hall
    have hok : ∀ i ∈ h.Interfaces, i.Flags &&& FlagUp ≠ 0 → i.AddrsErr = GoError.nil :=
      fun i hi hu => (hall i hi hu).1
    rw [CheckNetworkConnectionAndHost_enumerated h extraUrl herr hne hok]
    have hlen : (upInterfaces h.Interfaces).length ≠ 0 := by
      obtain ⟨i, hi, hu⟩ := hup
      have hmem : i ∈ upInterfaces h.Interfaces := by
        simp only [upInterfaces, List.mem_filter]
        exact ⟨hi, by simpa using hu⟩
      intro h0
      rw [List.length_eq_zero.mp h0] at hmem
      cases hmem
    have hcount : nonLoopbackIPAddrs h.Interfaces = 0 := by
      simp only [nonLoopbackIPAddrs, List.sum_eq_zero_iff, List.mem_map]
      rintro x ⟨i, hi, rfl⟩
      simp only [upInterfaces, List.mem_filter] at hi
      have hu : i.Flags &&& FlagUp ≠ 0 := by simpa using hi.2
      exact List.count_eq_zero.mpr (fun hmem => (hall i hi.1 hu).2 _ hmem rfl)
    simp [hlen, hcount]

theorem interface_stage_status_witness :
    CheckNetworkConnectionAndHost ⟨[], GoError.nil, fun _ _ => GoError.nil, fun _ _ => trivial⟩ "" =
      some ⟨ConnectionStatus_NoInterfaces, GoError.nil, []⟩ ∧
    CheckNetworkConnectionAndHost
        ⟨[⟨0, [Addr.ipAddr false], GoError.nil⟩, ⟨2, [], GoError.other "denied"⟩],
          GoError.nil, fun _ _ => GoError.nil, fun _ _ => trivial⟩ "" =
      some ⟨ConnectionStatus_NoInterfacesUp, GoError.nil, []⟩ ∧
    CheckNetworkConnectionAndHost
        ⟨[⟨1, [Addr.ipAddr true, Addr.otherAddr], GoError.nil⟩,
          ⟨0, [Addr.ipAddr false], GoError.nil⟩],
          GoError.nil, fun _ _ => GoError.nil, fun _ _ => trivial⟩ "http://example.com" =
      some ⟨ConnectionStatus_NoNonLoopbacksFound, GoError.nil, []⟩ :=
  ⟨(interface_stage_status ⟨[], GoError.nil, fun _ _ => GoError.nil, fun _ _ => trivial⟩ "" rfl).1 rfl,
   (interface_stage_status
      ⟨[⟨0, [Addr.ipAddr false], GoError.nil⟩, ⟨2, [], GoError.other "denied"⟩],
        GoError.nil, fun _ _ => GoError.nil, fun _ _ => trivial⟩ "" rfl).2.1 (by simp) (by decide),
   (interface_stage_status
      ⟨[⟨1, [Addr.ipAddr true, Addr.otherAddr], GoError.nil⟩,
        ⟨0, [Addr.ipAddr false], GoError.nil⟩],
        GoError.nil, fun _ _ => GoError.nil, fun _ _ => trivial⟩ "http://example.com" rfl).2.2
      (by simp) (by decide) (by decide)⟩

/-! ## Shared lemmas on the probe loop -/

theorem CheckNetworkConnectionAndHost_probeLoop (h : Host) (extraUrl : String)
    (hpass : InterfaceChecksPass h) :
    CheckNetworkConnectionAndHost h extraUrl = probeLoop h.Head (testUrls extraUrl) 0 [] := by
  obtain ⟨herr, hok, hup, hcount⟩ := hpass
  have hne : h.Interfaces ≠ [] := by
    intro h0
    apply hup
    simp [upInterfaces, h0]
  rw [CheckNetworkConnectionAndHost_enumerated h extraUrl herr hne hok]
  have hlen : (upInterfaces h.Interfaces).length ≠ 0 := by
    intro h0
    exact hup (List.length_eq_zero.mp h0)
  simp [hlen, hcount]

theorem probeLoop_all_succeed (Head : Nat → String → GoError) (urls : List String)
    (k : Nat) (probed : List String)
    (hall : ∀ i u, urls[i]? = some u → Head (k + i) u = GoError.nil) :
    probeLoop Head urls k probed =
      some ⟨ConnectionStatus_Connected, GoError.nil, probed ++ urls⟩ := by
  induction urls generalizing k probed with
  | nil => simp [probeLoop]
  | cons u rest ih =>
    have h0 : Head k u = GoError.nil := by simpa using hall 0 u (by simp)
    have hrest : ∀ i v, rest[i]? = some v → Head (k + 1 + i) v = GoError.nil := by
      intro i v hv
      have := hall (i + 1) v (by simpa using hv)
      rw [← this]
      congr 1
      omega
    simp [probeLoop, h0, ih (k + 1) (probed ++ [u]) hrest]

theorem probeLoop_first_failure (Head : Nat → String → GoError) (urls : List String)
    (k : Nat) (probed : List String) (j : Nat) (u : String)
    (hbefore : ∀ i v, i < j → urls[i]? = some v → Head (k + i) v = GoError.nil)
    (hu : urls[j]? = some u) (hfail : Head (k + j) u ≠ GoError.nil) :
    probeLoop Head urls k probed =
      match ExtractBasicError (Head (k + j) u) with
      | none => none
      | some basicErr =>
        if IsConnectivity basicErr.BasicError then
          some ⟨ConnectionStatus_NoInternet, GoError.nil, probed ++ urls.take (j + 1)⟩
        else some ⟨"", Head (k + j) u, probed ++ urls.take (j + 1)⟩ := by
  induction urls generalizing k probed j with
  | nil => simp at hu
  | cons w rest ih =>
    cases j with
    | zero =>
      simp at hu
      subst hu
      simp only [Nat.add_zero] at hfail ⊢
      simp only [probeLoop, hfail, IsConnectivity]
      simp
      exact fun h0 => absurd h0 hfail
    | succ j =>
      have h0 : Head k w = GoError.nil := by
        simpa using hbefore 0 w (by omega) (by simp)
      have hb : ∀ i v, i < j → rest[i]? = some v → Head (k + 1 + i) v = GoError.nil := by
        intro i v hi hv
        have := hbefore (i + 1) v (by omega) (by simpa using hv)
        rw [← this]
        congr 1
        omega
      have hu2 : rest[j]? = some u := by simpa using hu
      have hk : k + (j + 1) = k + 1 + j := by omega
      rw [hk] at hfail ⊢
      have := ih (k + 1) (probed ++ [w]) j hb hu2 hfail
      simp only [probeLoop, h0]
      simp [this]

theorem probeLoop_dichotomy (Head : Nat → String → GoError) (urls : List String) (k : Nat) :
    (∀ i u, urls[i]? = some u → Head (k + i) u = GoError.nil) ∨
    ∃ j u, (∀ i v, i < j → urls[i]? = some v → Head (k + i) v = GoError.nil) ∧
      urls[j]? = some u ∧ Head (k + j) u ≠ GoError.nil := by
  induction urls generalizing k with
  | nil => left; intro i u hu; simp at hu
  | cons w rest ih =>
    by_cases h0 : Head k w = GoError.nil
    · rcases ih (k + 1) with hall | ⟨j, u, hb, hu, hf⟩
      · left
        intro i u hu
        cases i with
        | zero => simp at hu; subst hu; simpa using h0
        | succ i =>
          have := hall i u (by simpa using hu)
          rw [← this]; congr 1; omega
      · right
        refine ⟨j + 1, u, ?_, by simpa using hu, ?_⟩
        · intro i v hi hv
          cases i with
          | zero => simp at hv; subst hv; simpa using h0
          | succ i =>
            have := hb i v (by omega) (by simpa using hv)
            rw [← this]; congr 1; omega
        · have hk : k + (j + 1) = k + 1 + j := by omega
          rw [hk]; exact hf
    · right
      exact ⟨0, w, by intro i v hi; omega, by simp, by simpa using h0⟩

/-! ## The probe stage of `CheckNetworkConnectionAndHost` -/

/-- C11: once the interface checks pass, if the first probe that fails (the `j`-th,
all earlier ones having succeeded) fails with an error that `ExtractBasicError`
classifies as `CantFindHost`, `CantResolveHost` or `CantConnectToHost`, then
`CheckNetworkConnectionAndHost` returns `(NoInternet, nil)` and the probes issued
are the first `j + 1` targets only; in particular, when the first target fails this
way the only probe is the one of `"http://www.google.com"`, whatever the extra URL. -/
theorem NoInternet_short_circuit (h : Host) (extraUrl : String) (j : Nat) (u : String)
    (b : BasicError) (hpass : InterfaceChecksPass h)
    (hbefore : ∀ i v, i < j → (testUrls extraUrl)[i]? = some v → h.Head i v = GoError.nil)
    (hu : (testUrls extraUrl)[j]? = some u)
    (hfail : h.Head j u ≠ GoError.nil)
    (hb : ExtractBasicError (h.Head j u) = some b)
    (hcat : b.BasicError = BasicError_CantFindHost ∨
      b.BasicError = BasicError_CantResolveHost ∨
      b.BasicError = BasicError_CantConnectToHost) :
    CheckNetworkConnectionAndHost h extraUrl =
      some ⟨ConnectionStatus_NoInternet, GoError.nil, (testUrls extraUrl).take (j + 1)⟩ ∧
    (j = 0 → (testUrls extraUrl).take (j + 1) = ["http://www.google.com"]) := by
  constructor
  · rw [CheckNetworkConnectionAndHost_probeLoop h extraUrl hpass]
    have hstep := probeLoop_first_failure h.Head (testUrls extraUrl) 0 [] j u
      (by simpa using hbefore) hu (by simpa using hfail)
    simp only [Nat.zero_add, hb, List.nil_append] at hstep
    rw [hstep]
    exact if_pos hcat
  · intro hj
    subst hj
    unfold testUrls
    split <;> rfl

theorem NoInternet_short_circuit_witness :
    CheckNetworkConnectionAndHost
        ⟨sampleInterfaces, GoError.nil, fun _ _ => sampleRefused, fun _ _ => trivial⟩ "http://example.com" =
      some ⟨ConnectionStatus_NoInternet, GoError.nil, ["http://www.google.com"]⟩ :=
  (NoInternet_short_circuit
    ⟨sampleInterfaces, GoError.nil, fun _ _ => sampleRefused, fun _ _ => trivial⟩ "http://example.com" 0
    "http://www.google.com" ⟨BasicError_CantConnectToHost, sampleRefused⟩
    ⟨rfl, by decide, by decide, by decide⟩
    (by intro i v hi; omega) rfl (by decide) rfl (by decide)).1

/-- C12: once the interface checks pass, if the first probe that fails (the `j`-th)
fails with an error whose classification is none of `CantFindHost`,
`CantResolveHost`, `CantConnectToHost`, then `CheckNetworkConnectionAndHost` returns
that probe error itself as its error, with the empty status (which is not
`NoInternet`), and the probes issued are the first `j + 1` targets only. -/
theorem probe_error_not_masked (h : Host) (extraUrl : String) (j : Nat) (u : String)
    (b : BasicError) (hpass : InterfaceChecksPass h)
    (hbefore : ∀ i v, i < j → (testUrls extraUrl)[i]? = some v → h.Head i v = GoError.nil)
    (hu : (testUrls extraUrl)[j]? = some u)
    (hfail : h.Head j u ≠ GoError.nil)
    (hb : ExtractBasicError (h.Head j u) = some b)
    (hcat : ¬ (b.BasicError = BasicError_CantFindHost ∨
      b.BasicError = BasicError_CantResolveHost ∨
      b.BasicError = BasicError_CantConnectToHost)) :
    CheckNetworkConnectionAndHost h extraUrl =
      some ⟨"", h.Head j u, (testUrls extraUrl).take (j + 1)⟩ ∧
    ("" : ConnectionStatus) ≠ ConnectionStatus_NoInternet := by
  constructor
  · rw [CheckNetworkConnectionAndHost_probeLoop h extraUrl hpass]
    have hstep := probeLoop_first_failure h.Head (testUrls extraUrl) 0 [] j u
      (by simpa using hbefore) hu (by simpa using hfail)
    simp only [Nat.zero_add, hb, List.nil_append] at hstep
    rw [hstep]
    exact if_neg hcat
  · decide

theorem probe_error_not_masked_witness :
    CheckNetworkConnectionAndHost
        ⟨sampleInterfaces, GoError.nil,
          fun k _ => if k = 0 then GoError.nil else sampleMalformed,
      fun k _ => by cases k <;> trivial⟩
        "http://example.com" =
      some ⟨"", sampleMalformed, ["http://www.google.com", "http://example.com"]⟩ :=
  (probe_error_not_masked
    ⟨sampleInterfaces, GoError.nil,
      fun k _ => if k = 0 then GoError.nil else sampleMalformed,
      fun k _ => by cases k <;> trivial⟩
    "http://example.com" 1 "http://example.com" ⟨BasicError_Unknown, sampleMalformed⟩
    ⟨rfl, by decide, by decide, by decide⟩
    (by
      intro i v hi _
      have hi0 : i = 0 := by omega
      subst hi0
      rfl)
    rfl (by decide) rfl (by decide)).1

/-- C13: the probe targets are exactly `["http://www.google.com"]` for the empty
extra URL, which is the call that `CheckNetworkConnection` makes, and
`["http://www.google.com", extraUrl]` for a non-empty one; once the interface checks
pass, the probes issued are an initial part of that list, in its order, and if every
probe of the list succeeds the result is `(Connected, nil)` after all of them. -/
theorem probe_targets_and_success (h : Host) (extraUrl : String)
    (hpass : InterfaceChecksPass h) :
    testUrls "" = ["http://www.google.com"] ∧
    (extraUrl ≠ "" → testUrls extraUrl = ["http://www.google.com", extraUrl]) ∧
    CheckNetworkConnection h = CheckNetworkConnectionAndHost h "" ∧
    (∀ out, CheckNetworkConnectionAndHost h extraUrl = some out →
      out.probes <+: testUrls extraUrl) ∧
    ((∀ i u, (testUrls extraUrl)[i]? = some u → h.Head i u = GoError.nil) →
      CheckNetworkConnectionAndHost h extraUrl =
        some ⟨ConnectionStatus_Connected, GoError.nil, testUrls extraUrl⟩) := by
  refine ⟨rfl, ?_, rfl, ?_, ?_⟩
  · intro hne
    simp [testUrls, hne]
  · intro out hout
    rw [CheckNetworkConnectionAndHost_probeLoop h extraUrl hpass] at hout
    rcases probeLoop_dichotomy h.Head (testUrls extraUrl) 0 with hall | ⟨j, u, hb, hu, hf⟩
    · rw [probeLoop_all_succeed h.Head (testUrls extraUrl) 0 [] hall] at hout
      simp only [Option.some.injEq] at hout
      rw [← hout]
      simp
    · rw [probeLoop_first_failure h.Head (testUrls extraUrl) 0 [] j u hb hu hf] at hout
      simp only [Nat.zero_add] at hout
      cases hcls : ExtractBasicError (h.Head j u) with
      | none => simp [hcls] at hout
      | some basicErr =>
        simp only [hcls, List.nil_append] at hout
        split at hout
        · simp only [Option.some.injEq] at hout
          rw [← hout]
          exact List.take_prefix _ _
        · simp only [Option.some.injEq] at hout
          rw [← hout]
          exact List.take_prefix _ _
  · intro hall
    rw [CheckNetworkConnectionAndHost_probeLoop h extraUrl hpass,
      probeLoop_all_succeed h.Head (testUrls extraUrl) 0 [] (by simpa using hall)]
    simp

theorem probe_targets_and_success_witness :
    CheckNetworkConnectionAndHost
        ⟨sampleInterfaces, GoError.nil, fun _ _ => GoError.nil, fun _ _ => trivial⟩ "http://example.com" =
      some ⟨ConnectionStatus_Connected, GoError.nil,
        ["http://www.google.com", "http://example.com"]⟩ :=
  (probe_targets_and_success
    ⟨sampleInterfaces, GoError.nil, fun _ _ => GoError.nil, fun _ _ => trivial⟩ "http://example.com"
    ⟨rfl, by decide, by decide, by decide⟩).2.2.2.2 (fun _ _ _ => rfl)

/-- C14: for every error `e` on which the call `e.Error()` returns (so `e` is not
nil), `ExtractBasicError(e)` returns a `BasicError` whose `Cause` is `e` itself, the
outermost error, whatever the category is; and whenever `ExtractBasicError` returns
a `BasicError`, its `Cause` is the classified error. -/
theorem cause_retention (e : GoError) (text : String) (htext : e.Error = some text) :
    (∃ b, ExtractBasicError e = some b ∧ b.Cause = e) ∧
    ∀ (e2 : GoError) (b2 : BasicError), ExtractBasicError e2 = some b2 → b2.Cause = e2 := by
  constructor
  · obtain ⟨c, hc, _⟩ := ExtractBasicError_returns e text htext
    exact ⟨⟨c, e⟩, hc, rfl⟩
  · intro e2 b2 h2
    exact (ExtractBasicError_some e2 b2 h2).1

theorem cause_retention_witness :
    ∃ b, ExtractBasicError sampleRefused = some b ∧ b.Cause = sampleRefused :=
  (cause_retention sampleRefused
    "Head \"http://www.google.com\": dial tcp: ConnectEx tcp: refused" rfl).1

/-- C15: `ExtractBasicError(io.EOF)` returns the category `UnexpectedEof` with
`Cause` `io.EOF`. -/
theorem eof_sentinel :
    ExtractBasicError GoError.eof = some ⟨BasicError_UnexpectedEof, GoError.eof⟩ := by
  rfl

/-! ## The counters of the interface stage -/

/-- C16: the counter `nonLoopbackAddrs` grows by one for each non-loopback
`*net.IPAddr` address and by nothing for a loopback `*net.IPAddr` or for an address
of any other dynamic type; after the interface loop it is the number of non-loopback
`*net.IPAddr` addresses of the up interfaces; so a snapshot with an up interface
whose up interfaces carry addresses of other dynamic types only yields
`(NoNonLoopbacksFound, nil)`. -/
theorem only_IPAddr_counted (h : Host) (extraUrl : String)
    (herr : h.InterfacesErr = GoError.nil)
    (hok : ∀ i ∈ h.Interfaces, i.Flags &&& FlagUp ≠ 0 → i.AddrsErr = GoError.nil) :
    (∀ rest n, addrsLoop (Addr.ipAddr false :: rest) n = addrsLoop rest n + 1) ∧
    (∀ rest n, addrsLoop (Addr.ipAddr true :: rest) n = addrsLoop rest n) ∧
    (∀ rest n, addrsLoop (Addr.otherAddr :: rest) n = addrsLoop rest n) ∧
    (∀ l n, addrsLoop l n = n + l.count (Addr.ipAddr false)) ∧
    interfacesLoop h.Interfaces 0 0 =
      .ok ((upInterfaces h.Interfaces).length, nonLoopbackIPAddrs h.Interfaces) ∧
    ((∃ i ∈ h.Interfaces, i.Flags &&& FlagUp ≠ 0) →
      (∀ i ∈ h.Interfaces, i.Flags &&& FlagUp ≠ 0 → ∀ a ∈ i.Addrs, a = Addr.otherAddr) →
      CheckNetworkConnectionAndHost h extraUrl =
        some ⟨ConnectionStatus_NoNonLoopbacksFound, GoError.nil, []⟩) := by
  refine ⟨?_, ?_, ?_, addrsLoop_eq, ?_, ?_⟩
  · intro rest n
    simp only [addrsLoop, addrsLoop_eq]
    simp
    omega
  · intro rest n
    simp [addrsLoop]
  · intro rest n
    simp [addrsLoop]
  · rw [interfacesLoop_ok h.Interfaces 0 0 hok]
    simp
  · intro hup hother
    have hne : h.Interfaces ≠ [] := by
      obtain ⟨i, hi, _⟩ := hup
      intro h0
      rw [h0] at hi
      cases hi
    rw [CheckNetworkConnectionAndHost_enumerated h extraUrl herr hne hok]
    have hlen : (upInterfaces h.Interfaces).length ≠ 0 := by
      obtain ⟨i, hi, hu⟩ := hup
      have hmem : i ∈ upInterfaces h.Interfaces := by
        simp only [upInterfaces, List.mem_filter]
        exact ⟨hi, by simpa using hu⟩
      intro h0
      rw [List.length_eq_zero.mp h0] at hmem
      cases hmem
    have hcount : nonLoopbackIPAddrs h.Interfaces = 0 := by
      simp only [nonLoopbackIPAddrs, List.sum_eq_zero_iff, List.mem_map]
      rintro x ⟨i, hi, rfl⟩
      simp only [upInterfaces, List.mem_filter] at hi
      have hu : i.Flags &&& FlagUp ≠ 0 := by simpa using hi.2
      refine List.count_eq_zero.mpr (fun hmem => ?_)
      have := hother i hi.1 hu _ hmem
      cases this
    simp [hlen, hcount]

theorem only_IPAddr_counted_witness :
    CheckNetworkConnectionAndHost
        ⟨[⟨1, [Addr.otherAddr, Addr.otherAddr], GoError.nil⟩,
          ⟨0, [Addr.ipAddr false], GoError.nil⟩],
          GoError.nil, fun _ _ => GoError.nil, fun _ _ => trivial⟩ "" =
      some ⟨ConnectionStatus_NoNonLoopbacksFound, GoError.nil, []⟩ :=
  (only_IPAddr_counted
    ⟨[⟨1, [Addr.otherAddr, Addr.otherAddr], GoError.nil⟩,
      ⟨0, [Addr.ipAddr false], GoError.nil⟩],
      GoError.nil, fun _ _ => GoError.nil, fun _ _ => trivial⟩ "" rfl (by decide)).2.2.2.2.2
    (by decide) (by decide)

/-- C17, as stated, fails: a single up interface with zero addresses, on which
`Addrs()` returns no error, leaves `interfacesUp` at 1 (and `nonLoopbackAddrs` at
0), so the result is `(NoNonLoopbacksFound, nil)` and not `(NoInterfacesUp, nil)`. -/
theorem up_interface_without_addresses_is_counted :
    interfacesLoop [⟨1, [], GoError.nil⟩] 0 0 = .ok (1, 0) ∧
    CheckNetworkConnectionAndHost
        ⟨[⟨1, [], GoError.nil⟩], GoError.nil, fun _ _ => GoError.nil, fun _ _ => trivial⟩ "" =
      some ⟨ConnectionStatus_NoNonLoopbacksFound, GoError.nil, []⟩ ∧
    ConnectionStatus_NoNonLoopbacksFound ≠ ConnectionStatus_NoInterfacesUp := by
  refine ⟨rfl, rfl, ?_⟩
  decide

/-- C17, amended: an interface with zero addresses, on which `Addrs()` returns no
error, contributes zero to the counter `nonLoopbackAddrs` and ends the loop by no
error; it contributes one to the counter `interfacesUp` when it is up and zero when
it is not. -/
theorem zero_address_interface (i : Interface) (rest : List Interface) (up n : Nat)
    (haddrs : i.Addrs = []) (herr : i.AddrsErr = GoError.nil) :
    interfacesLoop (i :: rest) up n =
      interfacesLoop rest (if i.Flags &&& FlagUp = 0 then up else up + 1) n := by
  by_cases hup : i.Flags &&& FlagUp = 0
  · simp [interfacesLoop, hup]
  · simp [interfacesLoop, hup, herr, haddrs, addrsLoop]

theorem zero_address_interface_witness :
    interfacesLoop (⟨1, [], GoError.nil⟩ :: sampleInterfaces) 0 0 =
      interfacesLoop sampleInterfaces 1 0 :=
  zero_address_interface ⟨1, [], GoError.nil⟩ sampleInterfaces 0 0 rfl rfl

/-! ## The two structural branches of `ExtractBasicError` -/

/-- C18: for every error whose outermost value is a `*url.Error`, whatever it wraps
and whatever its text is, `ExtractBasicError` returns one of `CantConnectToHost`,
`CantResolveHost`, `CantFindHost`, `Unknown`, and never `UnexpectedEof` or
`BadDataReceived`. -/
theorem urlError_categories (msg : String) (Err : GoError) :
    ∃ c, ExtractBasicError (GoError.urlError msg Err) =
        some ⟨c, GoError.urlError msg Err⟩ ∧
      (c = BasicError_CantConnectToHost ∨ c = BasicError_CantResolveHost ∨
        c = BasicError_CantFindHost ∨ c = BasicError_Unknown) ∧
      c ≠ BasicError_UnexpectedEof ∧ c ≠ BasicError_BadDataReceived := by
  have hdistinct : ∀ c : BasicErrorType,
      (c = BasicError_CantConnectToHost ∨ c = BasicError_CantResolveHost ∨
        c = BasicError_CantFindHost ∨ c = BasicError_Unknown) →
      c ≠ BasicError_UnexpectedEof ∧ c ≠ BasicError_BadDataReceived := by
    intro c hc
    rcases hc with h | h | h | h <;> subst h <;> constructor <;> decide
  suffices hmain : ∃ c, ExtractBasicError (GoError.urlError msg Err) =
        some ⟨c, GoError.urlError msg Err⟩ ∧
      (c = BasicError_CantConnectToHost ∨ c = BasicError_CantResolveHost ∨
        c = BasicError_CantFindHost ∨ c = BasicError_Unknown) by
    obtain ⟨c, hc, hmem⟩ := hmain
    exact ⟨c, hc, hmem, hdistinct c hmem⟩
  unfold ExtractBasicError
  simp only [GoError.Error]
  split <;> (try split) <;> (try split) <;> (try split) <;> simp

/-- C19, as stated, fails: on `&net.OpError{Op: "WSARecv"}` and on
`&net.OpError{Op: "local error"}`, whose `Err` is nil, `ExtractBasicError` returns
neither `UnexpectedEof` nor `Unknown` but panics in the call `err.Error()` of line
130, at `e.Err.Error()` of `(*net.OpError).Error`. -/
theorem bare_opError_nil_Err_panics :
    ExtractBasicError (GoError.opError "" "WSARecv" GoError.nil) = none ∧
    ExtractBasicError (GoError.opError "" "WSARecv" GoError.nil) ≠
      some ⟨BasicError_UnexpectedEof, GoError.opError "" "WSARecv" GoError.nil⟩ ∧
    ExtractBasicError (GoError.opError "" "local error" GoError.nil) = none ∧
    ExtractBasicError (GoError.opError "" "local error" GoError.nil) ≠
      some ⟨BasicError_Unknown, GoError.opError "" "local error" GoError.nil⟩ := by
  refine ⟨rfl, ?_, rfl, ?_⟩
  · intro h
    cases h
  · intro h
    cases h

/-- C19, amended: for every error whose outermost value is a `*net.OpError` and on
which the call `err.Error()` returns (so its `Err` is not nil), `ExtractBasicError`
returns `CantResolveHost` exactly when `Op` is `"dial"` and `Err` is an
`*os.SyscallError` with `Syscall` `"GetAddrInfoW"`, `CantConnectToHost` exactly when
`Op` is `"dial"` and `Err` is a `*net.OpError` with `Op` `"ConnectEx"`,
`UnexpectedEof` exactly when `Op` is `"WSARecv"`, and `Unknown` exactly in every
other case; in particular a bare `"dial"` error with another cause and a bare
`"local error"` are `Unknown`. -/
theorem bare_opError_categories (msg Op : String) (Err : GoError) (text : String)
    (htext : (GoError.opError msg Op Err).Error = some text) :
    ∃ c, ExtractBasicError (GoError.opError msg Op Err) =
        some ⟨c, GoError.opError msg Op Err⟩ ∧
      (c = BasicError_CantResolveHost ↔
        Op = "dial" ∧ ∃ m e, Err = GoError.syscallError m "GetAddrInfoW" e) ∧
      (c = BasicError_CantConnectToHost ↔
        Op = "dial" ∧ ∃ m e, Err = GoError.opError m "ConnectEx" e) ∧
      (c = BasicError_UnexpectedEof ↔ Op = "WSARecv") ∧
      (c = BasicError_Unknown ↔
        ¬ (Op = "dial" ∧ ∃ m e, Err = GoError.syscallError m "GetAddrInfoW" e) ∧
        ¬ (Op = "dial" ∧ ∃ m e, Err = GoError.opError m "ConnectEx" e) ∧
        ¬ Op = "WSARecv") ∧
      (Op = "dial" → (∀ m s e, Err ≠ GoError.syscallError m s e) →
        (∀ m o e, Err ≠ GoError.opError m o e) → c = BasicError_Unknown) ∧
      (Op = "local error" → c = BasicError_Unknown) := by
  have hne1 : BasicError_CantResolveHost ≠ BasicError_Unknown := by decide
  have hne2 : BasicError_CantConnectToHost ≠ BasicError_Unknown := by decide
  have hne3 : BasicError_UnexpectedEof ≠ BasicError_Unknown := by decide
  have hne4 : BasicError_CantResolveHost ≠ BasicError_CantConnectToHost := by decide
  have hne5 : BasicError_CantResolveHost ≠ BasicError_UnexpectedEof := by decide
  have hne6 : BasicError_CantConnectToHost ≠ BasicError_UnexpectedEof := by decide
  have hstep : ExtractBasicError (GoError.opError msg Op Err) =
      if Op = "dial" then
        match Err with
        | .syscallError _ Syscall _ =>
          if Syscall = "GetAddrInfoW" then
            some ⟨BasicError_CantResolveHost, GoError.opError msg Op Err⟩
          else some ⟨BasicError_Unknown, GoError.opError msg Op Err⟩
        | .opError _ Op2 _ =>
          if Op2 = "ConnectEx" then
            some ⟨BasicError_CantConnectToHost, GoError.opError msg Op Err⟩
          else some ⟨BasicError_Unknown, GoError.opError msg Op Err⟩
        | _ => some ⟨BasicError_Unknown, GoError.opError msg Op Err⟩
      else if Op = "WSARecv" then
        some ⟨BasicError_UnexpectedEof, GoError.opError msg Op Err⟩
      else some ⟨BasicError_Unknown, GoError.opError msg Op Err⟩ := by
    unfold ExtractBasicError
    rw [htext]
  rw [hstep]
  by_cases hdial : Op = "dial"
  · subst hdial
    cases Err with
    | syscallError m sc e =>
      by_cases hsc : sc = "GetAddrInfoW"
      · subst hsc
        refine ⟨BasicError_CantResolveHost, by simp, ?_⟩
        simp [hne1, hne4, hne5]
      · refine ⟨BasicError_Unknown, by simp [hsc], ?_⟩
        simp [hsc, hne1.symm, hne2.symm, hne3.symm]
    | opError m o e =>
      by_cases ho : o = "ConnectEx"
      · subst ho
        refine ⟨BasicError_CantConnectToHost, by simp, ?_⟩
        simp [hne2, hne4.symm, hne6]
      · refine ⟨BasicError_Unknown, by simp [ho], ?_⟩
        simp [ho, hne1.symm, hne2.symm, hne3.symm]
    | nil => simp [GoError.Error] at htext
    | urlError m e =>
      refine ⟨BasicError_Unknown, by simp, ?_⟩
      simp [hne1.symm, hne2.symm, hne3.symm]
    | eof =>
      refine ⟨BasicError_Unknown, by simp, ?_⟩
      simp [hne1.symm, hne2.symm, hne3.symm]
    | basicError c0 cause =>
      refine ⟨BasicError_Unknown, by simp, ?_⟩
      simp [hne1.symm, hne2.symm, hne3.symm]
    | other m =>
      refine ⟨BasicError_Unknown, by simp, ?_⟩
      simp [hne1.symm, hne2.symm, hne3.symm]
  · by_cases hrecv : Op = "WSARecv"
    · subst hrecv
      refine ⟨BasicError_UnexpectedEof, by simp, ?_⟩
      simp [hne3, hne5.symm, hne6.symm]
    · refine ⟨BasicError_Unknown, by simp [hdial, hrecv], ?_⟩
      simp [hdial, hrecv, hne1.symm, hne2.symm, hne3.symm]

theorem bare_opError_categories_witness :
    ExtractBasicError
        (GoError.opError "dial tcp: GetAddrInfoW: no such host" "dial"
          (GoError.syscallError "GetAddrInfoW: no such host" "GetAddrInfoW"
            (GoError.other "no such host"))) =
      some ⟨BasicError_CantResolveHost,
        GoError.opError "dial tcp: GetAddrInfoW: no such host" "dial"
          (GoError.syscallError "GetAddrInfoW: no such host" "GetAddrInfoW"
            (GoError.other "no such host"))⟩ :=
  (bare_opError_categories "dial tcp: GetAddrInfoW: no such host" "dial"
    (GoError.syscallError "GetAddrInfoW: no such host" "GetAddrInfoW"
      (GoError.other "no such host"))
    "dial tcp: GetAddrInfoW: no such host" rfl).elim
    (fun c hc => by
      have hcat : c = BasicError_CantResolveHost := hc.2.1.mpr ⟨rfl, _, _, rfl⟩
      rw [hc.1, hcat])

/-! ## The results of `CheckNetworkConnectionAndHost` -/

/-- When `Addrs()` fails on an up interface, the interface loop ends by returning a
non-nil error. -/
theorem interfacesLoop_error (l : List Interface) (up n : Nat)
    (hbad : ∃ i ∈ l, i.Flags &&& FlagUp ≠ 0 ∧ i.AddrsErr ≠ GoError.nil) :
    ∃ e, e ≠ GoError.nil ∧ interfacesLoop l up n = .error e := by
  induction l generalizing up n with
  | nil =>
    obtain ⟨i, hi, _⟩ := hbad
    cases hi
  | cons a rest ih =>
    by_cases hup : a.Flags &&& FlagUp = 0
    · have hrest : ∃ i ∈ rest, i.Flags &&& FlagUp ≠ 0 ∧ i.AddrsErr ≠ GoError.nil := by
        obtain ⟨i, hi, hiu, hie⟩ := hbad
        rcases List.mem_cons.mp hi with heq | hmem
        · subst heq
          exact absurd hup hiu
        · exact ⟨i, hmem, hiu, hie⟩
      obtain ⟨e, he, hloop⟩ := ih up n hrest
      exact ⟨e, he, by simp [interfacesLoop, hup, hloop]⟩
    · by_cases herr : a.AddrsErr = GoError.nil
      · have hrest : ∃ i ∈ rest, i.Flags &&& FlagUp ≠ 0 ∧ i.AddrsErr ≠ GoError.nil := by
          obtain ⟨i, hi, hiu, hie⟩ := hbad
          rcases List.mem_cons.mp hi with heq | hmem
          · subst heq
            exact absurd herr hie
          · exact ⟨i, hmem, hiu, hie⟩
        obtain ⟨e, he, hloop⟩ := ih (up + 1) (addrsLoop a.Addrs n) hrest
        exact ⟨e, he, by simp [interfacesLoop, hup, herr, hloop]⟩
      · exact ⟨a.AddrsErr, herr, by simp [interfacesLoop, hup, herr]⟩

/-- On results of `http.Head` the probe loop returns, with `(NoInternet, nil)`, `(Connected, nil)` or the empty
status and the error of the first failed probe; the latter exactly when that error is
classified outside the three connectivity categories. -/
theorem probe_stage_result (Head : Nat → String → GoError) (urls : List String)
    (hres : ∀ k u, IsHeadResult (Head k u)) :
    ∃ out, probeLoop Head urls 0 [] = some out ∧
      ((out.err = GoError.nil ∧
          (out.status = ConnectionStatus_NoInternet ∨
            out.status = ConnectionStatus_Connected)) ∨
        (out.err ≠ GoError.nil ∧ out.status = "")) ∧
      (out.err ≠ GoError.nil ↔
        ∃ j u b, (∀ i v, i < j → urls[i]? = some v → Head i v = GoError.nil) ∧
          urls[j]? = some u ∧ Head j u ≠ GoError.nil ∧
          ExtractBasicError (Head j u) = some b ∧ ¬ IsConnectivity b.BasicError) := by
  have hback : ∀ out, probeLoop Head urls 0 [] = some out →
      (∃ j u b, (∀ i v, i < j → urls[i]? = some v → Head i v = GoError.nil) ∧
          urls[j]? = some u ∧ Head j u ≠ GoError.nil ∧
          ExtractBasicError (Head j u) = some b ∧ ¬ IsConnectivity b.BasicError) →
      out.err ≠ GoError.nil := by
    rintro out hout ⟨j, u, b, hb, hu, hf, hcls, hnc⟩
    have hstep := probeLoop_first_failure Head urls 0 [] j u
      (by simpa using hb) hu (by simpa using hf)
    simp only [Nat.zero_add, hcls, List.nil_append, if_neg hnc] at hstep
    rw [hstep] at hout
    simp only [Option.some.injEq] at hout
    rw [← hout]
    exact hf
  rcases probeLoop_dichotomy Head urls 0 with hall | ⟨j, u, hb, hu, hf⟩
  · have hval := probeLoop_all_succeed Head urls 0 [] hall
    refine ⟨_, hval, Or.inl ⟨rfl, Or.inr rfl⟩, ?_⟩
    constructor
    · intro hne
      exact absurd rfl hne
    · exact hback _ hval
  · simp only [Nat.zero_add] at hb hf
    obtain ⟨text, htext⟩ := IsHeadResult_Error (Head j u) (hres j u) hf
    obtain ⟨c, hcls, _⟩ := ExtractBasicError_returns (Head j u) text htext
    have hstep := probeLoop_first_failure Head urls 0 [] j u
      (by simpa using hb) hu (by simpa using hf)
    simp only [Nat.zero_add, hcls, List.nil_append] at hstep
    by_cases hconn : IsConnectivity c
    · rw [if_pos hconn] at hstep
      refine ⟨_, hstep, Or.inl ⟨rfl, Or.inl rfl⟩, ?_⟩
      constructor
      · intro hne
        exact absurd rfl hne
      · exact hback _ hstep
    · rw [if_neg hconn] at hstep
      refine ⟨_, hstep, Or.inr ⟨hf, rfl⟩, ?_⟩
      constructor
      · intro _
        exact ⟨j, u, ⟨c, Head j u⟩, hb, hu, hf, hcls, hconn⟩
      · exact hback _ hstep

/-- C20: for every snapshot and every behaviour of the probes,
`CheckNetworkConnectionAndHost` returns, and returns either a nil error with one of
the statuses `NoInterfaces`, `NoInterfacesUp`, `NoNonLoopbacksFound`, `NoInternet`,
`Connected`, or a non-nil error with the empty status, which is none of the five;
the error is non-nil exactly when `net.Interfaces()` fails, or `Addrs()` fails on an
up interface, or the interface checks pass and the first failing probe is classified
outside `CantFindHost`, `CantResolveHost`, `CantConnectToHost`. -/
theorem result_well_formed (h : Host) (extraUrl : String) :
    ∃ out, CheckNetworkConnectionAndHost h extraUrl = some out ∧
      ((out.err = GoError.nil ∧
          (out.status = ConnectionStatus_NoInterfaces ∨
            out.status = ConnectionStatus_NoInterfacesUp ∨
            out.status = ConnectionStatus_NoNonLoopbacksFound ∨
            out.status = ConnectionStatus_NoInternet ∨
            out.status = ConnectionStatus_Connected)) ∨
        (out.err ≠ GoError.nil ∧ out.status = "")) ∧
      ¬ (("" : ConnectionStatus) = ConnectionStatus_NoInterfaces ∨
        ("" : ConnectionStatus) = ConnectionStatus_NoInterfacesUp ∨
        ("" : ConnectionStatus) = ConnectionStatus_NoNonLoopbacksFound ∨
        ("" : ConnectionStatus) = ConnectionStatus_NoInternet ∨
        ("" : ConnectionStatus) = ConnectionStatus_Connected) ∧
      (out.err ≠ GoError.nil ↔
        h.InterfacesErr ≠ GoError.nil ∨
        (h.InterfacesErr = GoError.nil ∧
          ∃ i ∈ h.Interfaces, i.Flags &&& FlagUp ≠ 0 ∧ i.AddrsErr ≠ GoError.nil) ∨
        (InterfaceChecksPass h ∧
          ∃ j u b,
            (∀ i v, i < j → (testUrls extraUrl)[i]? = some v → h.Head i v = GoError.nil) ∧
            (testUrls extraUrl)[j]? = some u ∧ h.Head j u ≠ GoError.nil ∧
            ExtractBasicError (h.Head j u) = some b ∧
            ¬ (b.BasicError = BasicError_CantFindHost ∨
              b.BasicError = BasicError_CantResolveHost ∨
              b.BasicError = BasicError_CantConnectToHost))) := by
  by_cases hE : h.InterfacesErr = GoError.nil
  · by_cases hbad : ∃ i ∈ h.Interfaces, i.Flags &&& FlagUp ≠ 0 ∧ i.AddrsErr ≠ GoError.nil
    · obtain ⟨e, he, hloop⟩ := interfacesLoop_error h.Interfaces 0 0 hbad
      have hlen : h.Interfaces.length ≠ 0 := by
        obtain ⟨i, hi, _⟩ := hbad
        intro h0
        rw [List.length_eq_zero.mp h0] at hi
        cases hi
      refine ⟨⟨"", e, []⟩, by simp [CheckNetworkConnectionAndHost, hE, hlen, hloop],
        Or.inr ⟨he, rfl⟩, by decide, ?_⟩
      constructor
      · intro _
        exact Or.inr (Or.inl ⟨hE, hbad⟩)
      · intro _
        exact he
    · have hok : ∀ i ∈ h.Interfaces, i.Flags &&& FlagUp ≠ 0 →
          i.AddrsErr = GoError.nil := by
        intro i hi hu
        by_contra hne
        exact hbad ⟨i, hi, hu, hne⟩
      by_cases hpass : InterfaceChecksPass h
      · obtain ⟨out, hout, hshape, hiff⟩ := probe_stage_result h.Head (testUrls extraUrl) h.HeadResult
        refine ⟨out, by rw [CheckNetworkConnectionAndHost_probeLoop h extraUrl hpass, hout],
          ?_, by decide, ?_⟩
        · rcases hshape with ⟨hnil, hst⟩ | hbadout
          · left
            refine ⟨hnil, ?_⟩
            rcases hst with hst | hst
            · exact Or.inr (Or.inr (Or.inr (Or.inl hst)))
            · exact Or.inr (Or.inr (Or.inr (Or.inr hst)))
          · exact Or.inr hbadout
        · rw [hiff]
          constructor
          · intro hex
            exact Or.inr (Or.inr ⟨hpass, hex⟩)
          · intro hex
            rcases hex with h1 | ⟨_, h2⟩ | ⟨_, h3⟩
            · exact absurd hE h1
            · exact absurd h2 hbad
            · exact h3
      · have hnot : ∀ out : Outcome, out.err = GoError.nil →
            (out.err ≠ GoError.nil ↔
              h.InterfacesErr ≠ GoError.nil ∨
              (h.InterfacesErr = GoError.nil ∧
                ∃ i ∈ h.Interfaces, i.Flags &&& FlagUp ≠ 0 ∧ i.AddrsErr ≠ GoError.nil) ∨
              (InterfaceChecksPass h ∧
                ∃ j u b,
                  (∀ i v, i < j → (testUrls extraUrl)[i]? = some v →
                    h.Head i v = GoError.nil) ∧
                  (testUrls extraUrl)[j]? = some u ∧ h.Head j u ≠ GoError.nil ∧
                  ExtractBasicError (h.Head j u) = some b ∧
                  ¬ (b.BasicError = BasicError_CantFindHost ∨
                    b.BasicError = BasicError_CantResolveHost ∨
                    b.BasicError = BasicError_CantConnectToHost))) := by
          intro out hnil
          constructor
          · intro hne
            exact absurd hnil hne
          · intro hex
            rcases hex with h1 | ⟨_, h2⟩ | ⟨h3, _⟩
            · exact absurd hE h1
            · exact absurd h2 hbad
            · exact absurd h3 hpass
        by_cases hempty : h.Interfaces = []
        · refine ⟨⟨ConnectionStatus_NoInterfaces, GoError.nil, []⟩,
            by simp [CheckNetworkConnectionAndHost, hE, hempty],
            Or.inl ⟨rfl, Or.inl rfl⟩, by decide, hnot _ rfl⟩
        · rw [CheckNetworkConnectionAndHost_enumerated h extraUrl hE hempty hok]
          by_cases hup : (upInterfaces h.Interfaces).length = 0
          · refine ⟨⟨ConnectionStatus_NoInterfacesUp, GoError.nil, []⟩, by simp [hup],
              Or.inl ⟨rfl, Or.inr (Or.inl rfl)⟩, by decide, hnot _ rfl⟩
          · by_cases hcount : nonLoopbackIPAddrs h.Interfaces = 0
            · refine ⟨⟨ConnectionStatus_NoNonLoopbacksFound, GoError.nil, []⟩,
                by simp [hup, hcount],
                Or.inl ⟨rfl, Or.inr (Or.inr (Or.inl rfl))⟩, by decide, hnot _ rfl⟩
            · exfalso
              apply hpass
              refine ⟨hE, hok, ?_, hcount⟩
              intro h0
              apply hup
              rw [h0]
              rfl
  · refine ⟨⟨"", h.InterfacesErr, []⟩, by simp [CheckNetworkConnectionAndHost, hE],
      Or.inr ⟨hE, rfl⟩, by decide, ?_⟩
    constructor
    · intro _
      exact Or.inl hE
    · intro _
      exact hE

end Whatnetwork
